import Mathlib

/-!
Verification of the SCSI protocol layer of libzbc (`src/lib/zbc_scsi.c`).

The C functions are shallowly embedded as Lean functions over natural numbers
and integers.  Machine integers are modelled as `Nat`/`Int` with explicit
`% 2 ^ w` reductions at the points where the C code can overflow or wrap.
Response buffers are modelled as functions `ℕ → ℕ` from byte offset to byte
value (with hypotheses `∀ i, buf i < 256` where byte-ness matters), and CDBs
under construction likewise.
-/

namespace ZbcScsi

/-- Big-endian decode of a 4-byte field starting at `off` (the transport
helper `zbc_sg_cmd_get_int32`). -/
def getInt32BE (buf : ℕ → ℕ) (off : ℕ) : ℕ :=
  buf off * 2 ^ 24 + buf (off + 1) * 2 ^ 16 + buf (off + 2) * 2 ^ 8 + buf (off + 3)

/-- Big-endian decode of an 8-byte field starting at `off` (the transport
helper `zbc_sg_cmd_get_int64`). -/
def getInt64BE (buf : ℕ → ℕ) (off : ℕ) : ℕ :=
  buf off * 2 ^ 56 + buf (off + 1) * 2 ^ 48 + buf (off + 2) * 2 ^ 40 +
  buf (off + 3) * 2 ^ 32 + buf (off + 4) * 2 ^ 24 + buf (off + 5) * 2 ^ 16 +
  buf (off + 6) * 2 ^ 8 + buf (off + 7)

/-- Big-endian encode of an 8-byte value into bytes `off .. off+7` of a CDB
(the transport helper `zbc_sg_cmd_set_int64`). -/
def setInt64BE (cdb : ℕ → ℕ) (off v : ℕ) : ℕ → ℕ :=
  fun i => if off ≤ i ∧ i ≤ off + 7 then v / 2 ^ (8 * (off + 7 - i)) % 2 ^ 8 else cdb i

/-- Reinterpretation of an unsigned 32-bit value as a signed (two's
complement) 32-bit quantity, as happens when a `uint32_t` big-endian decode is
stored into / compared through a signed 32-bit lvalue. -/
def toInt32 (x : ℕ) : ℤ :=
  if x % 2 ^ 32 < 2 ^ 31 then ((x % 2 ^ 32 : ℕ) : ℤ) else ((x % 2 ^ 32 : ℕ) : ℤ) - 2 ^ 32

/-- Field `logical_per_physical` as computed by `zbc_scsi_get_info`
(zbc_scsi.c:160): the C expression `1 << cmd.out_buf[13] & 0x0f` parses as
`(1 << buf[13]) & 0x0f` by operator precedence. -/
def logical_per_physical (b13 : ℕ) : ℕ :=
  (1 <<< b13) &&& 0x0f

/-- The geometry fields filled in by `zbc_scsi_get_info` (the `zbd_info`
member of `zbc_device_t`; the struct itself lives in a header outside
`src/`). Sizes are modelled as signed 32-bit results (`ℤ`), counts as
unsigned 64-bit (`ℕ`), matching the code's `<= 0` size check and the
spec's "non-positive"/"count" wording. -/
structure ZbdInfo where
  zbd_logical_blocks : ℕ
  zbd_logical_block_size : ℤ
  zbd_physical_block_size : ℤ
  zbd_physical_blocks : ℕ
  deriving Repr, DecidableEq

/-- Error code `-EINVAL`, the invalid-geometry error returned by `zbc_scsi_get_info`. -/
def eINVAL : ℤ := -22

/-- Error code `-ENOSYS`, returned for ATA drives and host-aware models. -/
def eNOSYS : ℤ := -38

/-- Error code `-ENXIO`, returned for unknown device types and non-character files. -/
def eNXIO : ℤ := -6

/-- The capacity-decoding tail of `zbc_scsi_get_info` (zbc_scsi.c:158-178),
run on the successful READ CAPACITY 16 reply buffer `reply`:
store `get_int64(reply[0]) + 1` (a `uint64_t`, hence the wrap modulo `2^64`)
as the logical block count, the signed view of `get_int32(reply[8])` as the
logical block size, compute `logical_per_physical` from byte 13, fail with
`-EINVAL` if the size is non-positive or the count is zero, and otherwise
derive the physical geometry. -/
def capacityDecode (reply : ℕ → ℕ) : Except ℤ ZbdInfo :=
  let logicalBlocks : ℕ := (getInt64BE reply 0 + 1) % 2 ^ 64
  let logicalBlockSize : ℤ := toInt32 (getInt32BE reply 8)
  let lpp : ℕ := logical_per_physical (reply 13)
  if logicalBlockSize ≤ 0 then .error eINVAL
  else if logicalBlocks = 0 then .error eINVAL
  else .ok { zbd_logical_blocks := logicalBlocks
             zbd_logical_block_size := logicalBlockSize
             zbd_physical_block_size := logicalBlockSize * lpp
             zbd_physical_blocks := logicalBlocks / lpp }

/-- The ATA test of `zbc_scsi_get_info` (zbc_scsi.c:110):
`strncmp((char *)(buf + 8), "ATA", 3) == 0`, i.e. reply bytes 8,9,10 are
the ASCII codes of `A`, `T`, `A`. -/
def ataCheck (reply : ℕ → ℕ) : Bool :=
  reply 8 == 65 && reply 9 == 84 && reply 10 == 65

/-- Peripheral device-type extraction done by `zbc_scsi_inquiry`
(zbc_scsi.c:76): the low 5 bits of reply byte 0. -/
def inquiryDevType (reply : ℕ → ℕ) : ℕ :=
  reply 0 &&& 0x1f

/-- Outcome of the identify/classify phase of `zbc_scsi_get_info`:
either an error code, or permission to proceed to the capacity step.
`bufFreed` records whether `free` was called on the inquiry reply buffer. -/
structure ClassifyResult where
  outcome : Except ℤ Unit
  bufFreed : Bool
  deriving Repr

/-- The identify/classify phase of `zbc_scsi_get_info` (zbc_scsi.c:103-138),
given a successful inquiry reply `reply` and the device-type codes
`hm`/`ha` (`ZBC_DEV_TYPE_HOST_MANAGED` / `ZBC_DEV_TYPE_HOST_AWARE`,
defined in a header outside `src/`, here passed as parameters): an ATA
vendor string fails with `-ENOSYS` after freeing the reply; otherwise the
reply is freed and the device type decides between proceeding (host
managed), `-ENOSYS` (host aware) and `-ENXIO` (anything else). -/
def classifyPhase (hm ha : ℕ) (reply : ℕ → ℕ) : ClassifyResult :=
  let dev_type := inquiryDevType reply
  if ataCheck reply then { outcome := .error eNOSYS, bufFreed := true }
  else if dev_type = hm then { outcome := .ok (), bufFreed := true }
  else if dev_type = ha then { outcome := .error eNOSYS, bufFreed := true }
  else { outcome := .error eNXIO, bufFreed := true }

/-- Success-path return value of `zbc_scsi_pread` (zbc_scsi.c:259,279):
with `lba_count` blocks requested, logical block size `l` and transport
residual `resid`, the code computes `sz = lba_count * l` in `size_t`
and returns `(sz - resid) / l` through an `int` (hence the final signed
32-bit reinterpretation). `resid ≤ sz` holds for any transport residual,
so the `size_t` subtraction is exact. -/
def zbc_scsi_pread_ret (l lba_count resid : ℕ) : ℤ :=
  toInt32 ((lba_count * l - resid) / l)

/-- Success-path return value of `zbc_scsi_pwrite` (zbc_scsi.c:298,319);
the computation is identical to the read path. -/
def zbc_scsi_pwrite_ret (l lba_count resid : ℕ) : ℤ :=
  toInt32 ((lba_count * l - resid) / l)

/-! ### Zone report (`zbc_scsi_report_zones`, zbc_scsi.c:372-540)

`ZBC_ZONE_DESCRIPTOR_OFFSET = 64` (response header size) and
`ZBC_ZONE_DESCRIPTOR_LENGTH = 64` (descriptor size) live in a header
outside `src/`; both values are fixed by the spec's binary layout
contract ("zone-report response header is 64 bytes …  each zone
descriptor is 64 bytes"). The product `*nr_zones * 64` is `unsigned int`
arithmetic, hence reduced modulo `2^32` before the `size_t` addition. -/

/-- Output buffer size chosen by `zbc_scsi_report_zones` (zbc_scsi.c:378-394)
for page size `p` and requested zone count `r`: start from the 64-byte
header, add `r * 64` descriptors (32-bit product) when `r ≠ 0`, and clamp
to the page size. -/
def reportOutBufSz (p r : ℕ) : ℕ :=
  if r = 0 then 64
  else
    let s := 64 + r * 64 % 2 ^ 32
    if s > p then p else s

/-- The possibly reduced requested zone count after the clamp at
zbc_scsi.c:387-393: when the requested buffer overflows the page, `*nr_zones`
is rewritten to the number of descriptors that fit the page. -/
def reportClampedReq (p r : ℕ) : ℕ :=
  if r = 0 then r
  else if 64 + r * 64 % 2 ^ 32 > p then (p - 64) / 64 else r

/-- The zone count written back through `*nr_zones` by
`zbc_scsi_report_zones` on a successful exchange (zbc_scsi.c:469-531):
`nz` is the device-reported count (zone-list length / 64),
`reported_zones` the number of descriptors the chosen buffer can hold,
and only when the caller's array is non-null and `reported_zones ≠ 0` is
`nz` limited by the (clamped) request and the buffer capacity. -/
def reportZonesCount (p r listLen : ℕ) (zonesNull : Bool) : ℕ :=
  let req := reportClampedReq p r
  let bufsz := reportOutBufSz p r
  let nz := listLen / 64
  let reported_zones := (bufsz - 64) / 64
  if ¬ zonesNull ∧ reported_zones ≠ 0 then
    let nz := if nz > req then req else nz
    if nz > reported_zones then reported_zones else nz
  else nz

/-- Byte 14 of the REPORT ZONES CDB (zbc_scsi.c:430): the caller's
reporting-options selector masked to its low 4 bits — there is no range
check on `ro` anywhere in `zbc_scsi_report_zones`. -/
def reportZonesCdb14 (ro : ℕ) : ℕ :=
  ro &&& 0x0f

/-- Observable outcome of one `zbc_scsi_report_zones` call: the returned
error code, the value written back through `*nr_zones`, and byte 14 of the
CDB that was issued. -/
structure ReportZonesResult where
  ret : ℤ
  nrZonesOut : ℕ
  cdb14 : ℕ
  deriving Repr, DecidableEq

/-- Function `zbc_scsi_report_zones` (zbc_scsi.c:372-540) for page size `p`,
requested count `r`, reporting options `ro`, null-ness of the caller's
zone array, transport outcome `execRet` (`0` = success) and response
zone-list length `listLen`.  The CDB is built with `cdb[14] = ro & 0x0f`
and the command is issued unconditionally — the function has no
argument-validation branch.  On transport failure the function jumps to
`out` leaving `*nr_zones` at its (possibly clamped) request value; on
success it decodes and writes back `reportZonesCount`. -/
def zbc_scsi_report_zones (p r : ℕ) (zonesNull : Bool) (ro : ℕ)
    (execRet : ℤ) (listLen : ℕ) : ReportZonesResult :=
  { ret := execRet
    nrZonesOut :=
      if execRet = 0 then reportZonesCount p r listLen zonesNull
      else reportClampedReq p r
    cdb14 := reportZonesCdb14 ro }

/-! ### Reset write pointer (`zbc_scsi_reset_write_pointer`, zbc_scsi.c:546-599) -/

/-- Modelled from the spec: `zbc_sg_cmd_init` (defined outside `src/`)
"allocates a CDB template sized for the given opcode" — a zero-filled
16-byte CDB. -/
def cmdInitCdb : ℕ → ℕ :=
  fun _ => 0

/-- Modelled from the spec: the RESET WRITE POINTER opcode and service
action (`ZBC_SG_RESET_WRITE_POINTER_CDB_OPCODE` /
`ZBC_SG_RESET_WRITE_POINTER_CDB_SA`, defined in a header outside `src/`;
the spec gives opcode 0x94, service action 0x14). -/
def resetWpOpcode : ℕ := 0x94

/-- Modelled from the spec: see `resetWpOpcode`. -/
def resetWpSa : ℕ := 0x14

/-- The CDB built by `zbc_scsi_reset_write_pointer` (zbc_scsi.c:581-589)
for a 64-bit `start_lba`: opcode and service action in bytes 0 and 1, then
either the reset-all flag in byte 14 (when `start_lba` is `(uint64_t)-1`,
i.e. `2^64 - 1`) or the big-endian LBA in bytes 2-9. -/
def resetWritePointerCdb (start_lba : ℕ) : ℕ → ℕ :=
  let cdb := cmdInitCdb
  let cdb := fun i => if i = 0 then resetWpOpcode else cdb i
  let cdb := fun i => if i = 1 then resetWpSa else cdb i
  if start_lba = 2 ^ 64 - 1 then
    fun i => if i = 14 then 0x01 else cdb i
  else
    setInt64BE cdb 2 start_lba

/-! ### Device open (`zbc_scsi_open`, zbc_scsi.c:189-246) -/

/-- Environment outcomes an `zbc_scsi_open` call can meet: whether `open`
succeeds, the `fstat` result, whether the opened node is a character
device, whether `zbc_dev_alloc` succeeds, and the result of
`zbc_scsi_get_info`.  `openErrno`/`statErrno` are the positive `errno`
values of the respective failures. -/
structure OpenEnv where
  openOk : Bool
  openErrno : ℕ
  statOk : Bool
  statErrno : ℕ
  isChr : Bool
  allocOk : Bool
  getInfoRet : ℤ
  deriving Repr, DecidableEq

/-- Observable outcome of `zbc_scsi_open`: the return code, whether the
file descriptor opened in step 1 was closed again, whether a device
structure was allocated / freed, and whether a device was handed back
through `*pdev`. -/
structure OpenResult where
  ret : ℤ
  fdOpened : Bool
  fdClosed : Bool
  devAllocated : Bool
  devFreed : Bool
  devReturned : Bool
  deriving Repr, DecidableEq

/-- Function `zbc_scsi_open` (zbc_scsi.c:189-246): open the node, `fstat` it,
require a character device, allocate the device structure, run
`zbc_scsi_get_info`; the error paths reach `out_free_dev`/`out`, which
free the device (when allocated) and close the file descriptor. -/
def zbc_scsi_open (env : OpenEnv) : OpenResult :=
  if ¬ env.openOk then
    { ret := -(env.openErrno : ℤ), fdOpened := false, fdClosed := false,
      devAllocated := false, devFreed := false, devReturned := false }
  else if ¬ env.statOk then
    { ret := -(env.statErrno : ℤ), fdOpened := true, fdClosed := true,
      devAllocated := false, devFreed := false, devReturned := false }
  else if ¬ env.isChr then
    { ret := eNXIO, fdOpened := true, fdClosed := true,
      devAllocated := false, devFreed := false, devReturned := false }
  else if ¬ env.allocOk then
    { ret := -12, fdOpened := true, fdClosed := true,
      devAllocated := false, devFreed := false, devReturned := false }
  else if env.getInfoRet ≠ 0 then
    { ret := env.getInfoRet, fdOpened := true, fdClosed := true,
      devAllocated := true, devFreed := true, devReturned := false }
  else
    { ret := 0, fdOpened := true, fdClosed := false,
      devAllocated := true, devFreed := false, devReturned := true }

/-- READ CAPACITY 16 reply with last LBA 0x3FF (so 1024 logical blocks),
logical block size 512 and byte 13 equal to 4 (one physical block = 16
logical blocks per the SCSI field definition). -/
def replyB13Four : ℕ → ℕ :=
  fun i => if i = 6 then 3 else if i = 7 then 255 else
    if i = 10 then 2 else if i = 13 then 4 else 0

/-- READ CAPACITY 16 reply with last LBA 0x3FF, logical block size 512 and
byte 13 equal to 0 (one logical block per physical block). -/
def replyCap512 : ℕ → ℕ :=
  fun i => if i = 6 then 3 else if i = 7 then 255 else if i = 10 then 2 else 0

/-- READ CAPACITY 16 reply whose 8-byte last-LBA field is all ones
(raw value `2 ^ 64 - 1`) with logical block size 512. -/
def replyAllOnesLba : ℕ → ℕ :=
  fun i => if i ≤ 7 then 255 else if i = 10 then 2 else 0

/-- Identify reply carrying the ATA vendor string at bytes 8-10 while its
peripheral-type byte holds the host-managed code 0x14. -/
def replyAtaHm : ℕ → ℕ :=
  fun i => if i = 0 then 0x14 else
    if i = 8 then 65 else if i = 9 then 84 else if i = 10 then 65 else 0

/-- Identify reply of a host-managed device (peripheral type 0x14),
vendor field not "ATA". -/
def replyHostManaged : ℕ → ℕ :=
  fun i => if i = 0 then 0x14 else 0

/-- Identify reply whose peripheral-type byte is 0, vendor field not "ATA". -/
def replyTypeZero : ℕ → ℕ :=
  fun _ => 0

/-- Identify reply with an unrecognised peripheral type (5), vendor field
not "ATA". -/
def replyTypeFive : ℕ → ℕ :=
  fun i => if i = 0 then 5 else 0

/-- Open-call environment in which everything succeeds up to
`zbc_scsi_get_info`, which fails with `-EIO`. -/
def envGetInfoFail : OpenEnv :=
  { openOk := true, openErrno := 0, statOk := true, statErrno := 0,
    isChr := true, allocOk := true, getInfoRet := -5 }

/-! ## Claim theorems -/

theorem logical_per_physical_eq_pow_mod (b13 : ℕ) :
    logical_per_physical b13 = 2 ^ b13 % 16 := by
  unfold logical_per_physical
  rw [Nat.shiftLeft_eq, one_mul]
  have h : (0x0f : ℕ) = 2 ^ 4 - 1 := by norm_num
  rw [h, Nat.and_pow_two_sub_one_eq_mod]

theorem toInt32_of_lt (x : ℕ) (hx : x < 2 ^ 31) : toInt32 x = (x : ℤ) := by
  unfold toInt32
  have h32 : x % 2 ^ 32 = x := Nat.mod_eq_of_lt (by omega)
  rw [h32, if_pos hx]

theorem pow_mod_sixteen (b : ℕ) : 2 ^ b % 16 = if b ≤ 3 then 2 ^ b else 0 := by
  by_cases h : b ≤ 3
  · interval_cases b <;> simp
  · have h4 : 4 ≤ b := by omega
    have hdvd : (16 : ℕ) ∣ 2 ^ b := by
      have : (2 : ℕ) ^ 4 ∣ 2 ^ b := pow_dvd_pow 2 h4
      simpa using this
    simp [Nat.eq_zero_of_dvd_of_lt, h, Nat.mod_eq_zero_of_dvd hdvd]

/-- C10: the physical-geometry derivation is only well-defined when reply
byte 13 is at most 3: exactly then is the divisor `logical_per_physical`
nonzero, and in that range it equals `2 ^ b13 ∈ {1, 2, 4, 8}`; for byte
values 4 and above the computed divisor is 0. -/
theorem claim_C10_divisor (b13 : ℕ) (hb : b13 < 256) :
    (logical_per_physical b13 ≠ 0 ↔ b13 ≤ 3) ∧
    (b13 ≤ 3 → logical_per_physical b13 = 2 ^ b13 ∧
      (logical_per_physical b13 = 1 ∨ logical_per_physical b13 = 2 ∨
       logical_per_physical b13 = 4 ∨ logical_per_physical b13 = 8)) ∧
    (4 ≤ b13 → logical_per_physical b13 = 0) := by
  rw [logical_per_physical_eq_pow_mod, pow_mod_sixteen]
  refine ⟨?_, ?_, ?_⟩
  · constructor
    · intro h
      by_contra hb3
      simp [hb3] at h
    · intro h
      simp [h]
  · intro h
    simp only [h, if_pos]
    interval_cases b13 <;> simp
  · intro h
    have : ¬ b13 ≤ 3 := by omega
    simp [this]

/-- Witness for C10 at concrete bytes 3 and 4. -/
theorem claim_C10_divisor_witness :
    logical_per_physical 3 = 8 ∧ logical_per_physical 4 = 0 :=
  ⟨((claim_C10_divisor 3 (by norm_num)).2.1 (by norm_num)).1,
   (claim_C10_divisor 4 (by norm_num)).2.2 (by norm_num)⟩

/-- C2 (code bug, flagged in the spec's design notes): the intended
logical-per-physical factor for capacity-reply byte 13 is
`2 ^ (byte13 & 0x0f)`, but the unparenthesized C expression
`1 << buf[13] & 0x0f` computes `(1 << buf[13]) & 0x0f`; at byte 13 = 4
the code yields 0 instead of 16, and the decoded geometry then carries a
zero physical block size (with the physical block count produced by a
division by zero). -/
theorem claim_C2_bug :
    logical_per_physical 4 = 0 ∧
    (2 : ℕ) ^ (4 &&& 0x0f) = 16 ∧
    logical_per_physical 4 ≠ 2 ^ (4 &&& 0x0f) ∧
    capacityDecode replyB13Four =
      .ok { zbd_logical_blocks := 1024, zbd_logical_block_size := 512,
            zbd_physical_block_size := 0, zbd_physical_blocks := 0 } := by
  refine ⟨by decide, by decide, by decide, ?_⟩
  rfl

/-- C4 amended: on every successful READ CAPACITY 16 reply the stored
logical block count is the 8-byte big-endian last-LBA value plus 1 reduced
modulo `2 ^ 64` (a `uint64_t` increment), the stored logical block size is
the signed view of the 4-byte big-endian field at offset 8, and the
operation fails with `-EINVAL` exactly when that size is non-positive or
the wrapped count is zero. -/
theorem claim_C4_capacity (reply : ℕ → ℕ) :
    (capacityDecode reply = .error eINVAL ↔
      toInt32 (getInt32BE reply 8) ≤ 0 ∨ (getInt64BE reply 0 + 1) % 2 ^ 64 = 0) ∧
    ∀ info, capacityDecode reply = .ok info →
      info.zbd_logical_blocks = (getInt64BE reply 0 + 1) % 2 ^ 64 ∧
      info.zbd_logical_block_size = toInt32 (getInt32BE reply 8) := by
  simp only [capacityDecode]
  split_ifs with h1 h2
  · refine ⟨by simp [h1], ?_⟩
    intro info h
    simp at h
  · refine ⟨⟨fun _ => Or.inr h2, fun _ => rfl⟩, ?_⟩
    intro info h
    simp at h
  · constructor
    · constructor
      · intro h
        simp at h
      · intro h
        rcases h with h | h
        · exact absurd h h1
        · exact absurd h h2
    · intro info h
      rw [Except.ok.injEq] at h
      subst h
      exact ⟨rfl, rfl⟩

/-- Witness for C4 at the spec's concrete reply: last LBA 0x3FF and size
field 512 decode to 1024 blocks of 512 bytes. -/
theorem claim_C4_capacity_witness :
    capacityDecode replyCap512 =
      Except.ok { zbd_logical_blocks := 1024, zbd_logical_block_size := 512,
                  zbd_physical_block_size := 512, zbd_physical_blocks := 1024 } ∧
    (getInt64BE replyCap512 0 + 1) % 2 ^ 64 = 1024 ∧
    toInt32 (getInt32BE replyCap512 8) = 512 := by
  have h := (claim_C4_capacity replyCap512).2
    { zbd_logical_blocks := 1024, zbd_logical_block_size := 512,
      zbd_physical_block_size := 512, zbd_physical_blocks := 1024 } (by rfl)
  exact ⟨by rfl, by simpa using h.1.symm, by simpa using h.2.symm⟩

/-- C4 counterexample: an all-ones last-LBA field (raw `2 ^ 64 - 1`) with a
valid 512-byte size field.  The claim as stated says the stored count is the
raw value plus 1 (which is nonzero) and that the operation fails only for a
non-positive size or zero count, so it predicts success; the code wraps the
`uint64_t` increment to 0 and fails with `-EINVAL`. -/
theorem claim_C4_counterexample :
    capacityDecode replyAllOnesLba = .error eINVAL ∧
    getInt64BE replyAllOnesLba 0 + 1 ≠ 0 ∧
    0 < toInt32 (getInt32BE replyAllOnesLba 8) := by
  refine ⟨rfl, by decide, by decide⟩

/-- C5: an Identify reply whose bytes 8-10 spell "ATA" makes device
bring-up fail with `-ENOSYS` (unsupported device family) and free the
reply buffer, regardless of the peripheral-type byte and of the
device-type codes in use. -/
theorem claim_C5_ata (hm ha : ℕ) (reply : ℕ → ℕ)
    (h8 : reply 8 = 65) (h9 : reply 9 = 84) (h10 : reply 10 = 65) :
    (classifyPhase hm ha reply).outcome = .error eNOSYS ∧
    (classifyPhase hm ha reply).bufFreed = true := by
  have hata : ataCheck reply = true := by simp [ataCheck, h8, h9, h10]
  simp [classifyPhase, hata]

/-- Witness for C5: an ATA reply whose type byte is the host-managed code
still fails bring-up. -/
theorem claim_C5_ata_witness :
    (classifyPhase 0x14 0 replyAtaHm).outcome = .error eNOSYS ∧
    (classifyPhase 0x14 0 replyAtaHm).bufFreed = true :=
  claim_C5_ata 0x14 0 replyAtaHm rfl rfl rfl

/-- C6: on a non-ATA Identify reply, classification looks only at the
5-bit peripheral device-type code of byte 0: the host-managed code
proceeds to the capacity step, the host-aware code fails with `-ENOSYS`,
anything else fails with `-ENXIO`; the inquiry buffer is freed in every
case, and two non-ATA replies with the same device-type code classify
identically. -/
theorem claim_C6_classify (hm ha : ℕ) (hne : hm ≠ ha) (reply : ℕ → ℕ)
    (hata : ataCheck reply = false) :
    (inquiryDevType reply = hm → (classifyPhase hm ha reply).outcome = .ok ()) ∧
    (inquiryDevType reply = ha → (classifyPhase hm ha reply).outcome = .error eNOSYS) ∧
    (inquiryDevType reply ≠ hm → inquiryDevType reply ≠ ha →
      (classifyPhase hm ha reply).outcome = .error eNXIO) ∧
    (classifyPhase hm ha reply).bufFreed = true ∧
    ∀ g : ℕ → ℕ, ataCheck g = false → inquiryDevType g = inquiryDevType reply →
      classifyPhase hm ha g = classifyPhase hm ha reply := by
  refine ⟨?_, ?_, ?_, ?_, ?_⟩
  · intro h
    simp [classifyPhase, hata, h]
  · intro h
    simp [classifyPhase, hata, h, Ne.symm hne]
  · intro h1 h2
    simp [classifyPhase, hata, h1, h2]
  · simp only [classifyPhase]
    split_ifs <;> rfl
  · intro g hg hgd
    unfold classifyPhase
    rw [hg, hata, hgd]

/-- Witness for C6 with the device-type codes 0x14 (host managed) and 0
(host aware): type 0x14 proceeds, type 0 is rejected with `-ENOSYS`,
type 5 with `-ENXIO`. -/
theorem claim_C6_classify_witness :
    (classifyPhase 0x14 0 replyHostManaged).outcome = .ok () ∧
    (classifyPhase 0x14 0 replyTypeZero).outcome = .error eNOSYS ∧
    (classifyPhase 0x14 0 replyTypeFive).outcome = .error eNXIO :=
  ⟨(claim_C6_classify 0x14 0 (by decide) replyHostManaged rfl).1 rfl,
   (claim_C6_classify 0x14 0 (by decide) replyTypeZero rfl).2.1 rfl,
   (claim_C6_classify 0x14 0 (by decide) replyTypeFive rfl).2.2.1
     (by decide) (by decide)⟩

/-- C3 amended: on a successful transfer of `c` blocks of size `l > 0`
with residual `resid ≤ c * l`, both `zbc_scsi_pread` and
`zbc_scsi_pwrite` return `(c * l - resid) / l` — provided that quotient
fits the signed 32-bit return type; in particular residual 0 returns `c`
and residual `c * l` returns 0 (a success, not an error). -/
theorem claim_C3_residual (l c resid : ℕ) (hl : 0 < l) (_hr : resid ≤ c * l)
    (hfit : (c * l - resid) / l < 2 ^ 31) :
    zbc_scsi_pread_ret l c resid = ((c * l - resid) / l : ℕ) ∧
    zbc_scsi_pwrite_ret l c resid = ((c * l - resid) / l : ℕ) ∧
    (resid = 0 → zbc_scsi_pread_ret l c resid = c ∧
      zbc_scsi_pwrite_ret l c resid = c) ∧
    (resid = c * l → zbc_scsi_pread_ret l c resid = 0 ∧
      zbc_scsi_pwrite_ret l c resid = 0) := by
  have hread : zbc_scsi_pread_ret l c resid = ((c * l - resid) / l : ℕ) :=
    toInt32_of_lt _ hfit
  have hwrite : zbc_scsi_pwrite_ret l c resid = ((c * l - resid) / l : ℕ) :=
    toInt32_of_lt _ hfit
  refine ⟨hread, hwrite, ?_, ?_⟩
  · intro h0
    have hc : (c * l - resid) / l = c := by
      rw [h0, Nat.sub_zero, Nat.mul_div_cancel c hl]
    rw [hread, hwrite, hc]
    exact ⟨rfl, rfl⟩
  · intro hs
    rw [hread, hwrite, hs]
    simp

/-- Witness for C3 at block size 512: a 3-block transfer with residual
512 returns 2 blocks, with residual 0 returns 3, with residual 1536
returns 0. -/
theorem claim_C3_residual_witness :
    zbc_scsi_pread_ret 512 3 512 = 2 ∧ zbc_scsi_pwrite_ret 512 3 512 = 2 ∧
    zbc_scsi_pread_ret 512 3 0 = 3 ∧ zbc_scsi_pread_ret 512 3 1536 = 0 := by
  have h1 := claim_C3_residual 512 3 512 (by norm_num) (by norm_num) (by norm_num)
  have h2 := claim_C3_residual 512 3 0 (by norm_num) (by norm_num) (by norm_num)
  have h3 := claim_C3_residual 512 3 1536 (by norm_num) (by norm_num) (by norm_num)
  refine ⟨?_, ?_, ?_, ?_⟩
  · rw [h1.1]; norm_num
  · rw [h1.2.1]; norm_num
  · exact_mod_cast (h2.2.2.1 rfl).1
  · exact (h3.2.2.2 (by norm_num)).1

/-- C3 counterexample: the claim as stated covers every block count of a
`uint32_t` request; at `l = 1`, `c = 2 ^ 31`, residual 0 the mathematical
quotient is `2 ^ 31`, but the value travels through the `int` return and
comes back as `-2 ^ 31` — a negative value, not the number of blocks
transferred. -/
theorem claim_C3_counterexample :
    zbc_scsi_pread_ret 1 (2 ^ 31) 0 = -(2 ^ 31) ∧
    zbc_scsi_pread_ret 1 (2 ^ 31) 0 < 0 ∧
    zbc_scsi_pread_ret 1 (2 ^ 31) 0 ≠ ((2 ^ 31 * 1 - 0) / 1 : ℕ) := by
  refine ⟨by decide, by decide, by decide⟩

theorem and_fifteen_eq_mod (x : ℕ) : x &&& 0x0f = x % 16 := by
  have h : (0x0f : ℕ) = 2 ^ 4 - 1 := by norm_num
  rw [h, Nat.and_pow_two_sub_one_eq_mod]

/-- C1 amended: with a non-null zone array, a positive requested count `r`
whose byte size does not overflow the 32-bit buffer-size product, and a
page size of at least 128 bytes, the count written back equals
`min r (min D bufFit)` with `D` the device-reported count and
`bufFit = (pageSize - 64) / 64`, and so never exceeds `r`; but when
`r = 0` or the zone array is null, the device-reported count is written
back unclamped. -/
theorem claim_C1_report_count (p r listLen : ℕ) (hp : 128 ≤ p) :
    reportZonesCount p 0 listLen false = listLen / 64 ∧
    reportZonesCount p r listLen true = listLen / 64 ∧
    (0 < r → r * 64 < 2 ^ 32 →
      reportZonesCount p r listLen false =
        min r (min (listLen / 64) ((p - 64) / 64)) ∧
      reportZonesCount p r listLen false ≤ r) := by
  refine ⟨?_, ?_, ?_⟩
  · simp [reportZonesCount, reportOutBufSz, reportClampedReq]
  · simp [reportZonesCount]
  · intro hr hw
    have hmod : r * 64 % 2 ^ 32 = r * 64 := Nat.mod_eq_of_lt hw
    have hr0 : ¬ r = 0 := by omega
    have heq : reportZonesCount p r listLen false =
        min r (min (listLen / 64) ((p - 64) / 64)) := by
      simp only [reportZonesCount, reportOutBufSz, reportClampedReq, hmod,
        if_neg hr0]
      norm_num [Nat.min_def]
      split_ifs <;> omega
    exact ⟨heq, heq ▸ Nat.min_le_left _ _⟩

/-- Witness for C1 on a 4096-byte page: requesting 0 of 7 reported zones
writes back 7, requesting 5 of 7 writes back 5. -/
theorem claim_C1_report_count_witness :
    reportZonesCount 4096 0 448 false = 7 ∧
    reportZonesCount 4096 5 448 false = 5 := by
  have h := claim_C1_report_count 4096 5 448 (by norm_num)
  exact ⟨h.1.trans (by decide),
    ((h.2.2 (by norm_num) (by norm_num)).1).trans (by decide)⟩

/-- C1 counterexample: the claim as stated demands
`min(R, D, bufFit)` and in particular a write-back of at most `R` also
when `R = 0` or the zone array is null; on a 4096-byte page the code
writes back the device-reported count instead — 5 zones for `R = 0`, and
7 zones for a null array with `R = 3`. -/
theorem claim_C1_counterexample :
    reportZonesCount 4096 0 320 false = 5 ∧
    ¬ reportZonesCount 4096 0 320 false ≤ 0 ∧
    reportZonesCount 4096 3 448 true = 7 ∧
    ¬ reportZonesCount 4096 3 448 true ≤ 3 := by
  refine ⟨by decide, by decide, by decide, by decide⟩

/-- C9 amended: `zbc_scsi_report_zones` never raises an invalid-argument
error for an out-of-range reporting-options selector; it silently masks
the selector to its low 4 bits (`cdb[14] = ro & 0x0f`), issues the
command, and behaves identically to the masked selector. -/
theorem claim_C9_mask (p r : ℕ) (zonesNull : Bool) (ro : ℕ) (execRet : ℤ)
    (listLen : ℕ) :
    (zbc_scsi_report_zones p r zonesNull ro execRet listLen).cdb14 = ro % 16 ∧
    (zbc_scsi_report_zones p r zonesNull ro execRet listLen).ret = execRet ∧
    zbc_scsi_report_zones p r zonesNull ro execRet listLen =
      zbc_scsi_report_zones p r zonesNull (ro % 16) execRet listLen := by
  refine ⟨?_, rfl, ?_⟩
  · simp [zbc_scsi_report_zones, reportZonesCdb14, and_fifteen_eq_mod]
  · simp only [zbc_scsi_report_zones, reportZonesCdb14, and_fifteen_eq_mod]
    have : ro % 16 % 16 = ro % 16 := by omega
    rw [this]

/-- C9 counterexample: reporting-options selector 0x10 lies outside the
4-bit range, yet with a successful exchange the operation returns 0 (not
`-EINVAL`) and the CDB carries the silently truncated selector 0. -/
theorem claim_C9_counterexample :
    (zbc_scsi_report_zones 4096 1 false 16 0 64).ret = 0 ∧
    (zbc_scsi_report_zones 4096 1 false 16 0 64).ret ≠ eINVAL ∧
    (zbc_scsi_report_zones 4096 1 false 16 0 64).cdb14 = 0 := by
  refine ⟨rfl, by decide, rfl⟩

/-- C8: the reset-write-pointer CDB carries the reset-all flag in byte 14
and all-zero Zone ID bytes 2-9 exactly for the all-ones sentinel LBA; any
other LBA is encoded big-endian in bytes 2-9 with the flag byte 0. -/
theorem claim_C8_reset_cdb (lba : ℕ) (hlba : lba < 2 ^ 64) :
    (lba = 2 ^ 64 - 1 →
      resetWritePointerCdb lba 14 = 0x01 ∧
      ∀ i, 2 ≤ i → i ≤ 9 → resetWritePointerCdb lba i = 0) ∧
    (lba ≠ 2 ^ 64 - 1 →
      resetWritePointerCdb lba 14 = 0 ∧
      ∀ i, 2 ≤ i → i ≤ 9 →
        resetWritePointerCdb lba i = lba / 2 ^ (8 * (9 - i)) % 2 ^ 8) := by
  constructor
  · intro h
    subst h
    constructor
    · simp [resetWritePointerCdb]
    · intro i h2 h9
      have h14 : ¬ i = 14 := by omega
      have h1 : ¬ i = 1 := by omega
      have h0 : ¬ i = 0 := by omega
      simp [resetWritePointerCdb, cmdInitCdb, h14, h1, h0]
  · intro h
    constructor
    · have hq : ¬ lba = 18446744073709551615 := by omega
      simp [resetWritePointerCdb, setInt64BE, cmdInitCdb, hq]
    · intro i h2 h9
      have hi : 2 ≤ i ∧ i ≤ 2 + 7 := ⟨h2, by omega⟩
      simp only [resetWritePointerCdb, if_neg h, setInt64BE, if_pos hi]

/-- Witness for C8: the sentinel sets only the flag byte; LBA 258 encodes
as bytes 0x01, 0x02 at offsets 8, 9 with the flag clear. -/
theorem claim_C8_reset_cdb_witness :
    resetWritePointerCdb (2 ^ 64 - 1) 14 = 1 ∧
    resetWritePointerCdb (2 ^ 64 - 1) 5 = 0 ∧
    resetWritePointerCdb 258 14 = 0 ∧
    resetWritePointerCdb 258 8 = 1 ∧
    resetWritePointerCdb 258 9 = 2 := by
  have hs := claim_C8_reset_cdb (2 ^ 64 - 1) (by norm_num)
  have hn := claim_C8_reset_cdb 258 (by norm_num)
  refine ⟨(hs.1 rfl).1, (hs.1 rfl).2 5 (by norm_num) (by norm_num),
    (hn.2 (by norm_num)).1, ?_, ?_⟩
  · rw [(hn.2 (by norm_num)).2 8 (by norm_num) (by norm_num)]
    norm_num
  · rw [(hn.2 (by norm_num)).2 9 (by norm_num) (by norm_num)]
    norm_num

/-- C7: whenever `zbc_scsi_open` fails after the file descriptor was
opened — stat failure, non-character device, allocation failure, or
bring-up failure — the descriptor is closed, any allocated device
structure is freed, and no device is handed back. -/
theorem claim_C7_open_cleanup (env : OpenEnv)
    (hopened : (zbc_scsi_open env).fdOpened = true)
    (hfail : (zbc_scsi_open env).ret ≠ 0) :
    (zbc_scsi_open env).fdClosed = true ∧
    ((zbc_scsi_open env).devAllocated = true →
      (zbc_scsi_open env).devFreed = true) ∧
    (zbc_scsi_open env).devReturned = false := by
  unfold zbc_scsi_open at *
  split_ifs at * <;> simp_all

/-- Witness for C7: an open whose bring-up step fails with `-EIO` closes
the descriptor, frees the device, and returns nothing. -/
theorem claim_C7_open_cleanup_witness :
    (zbc_scsi_open envGetInfoFail).fdClosed = true ∧
    (zbc_scsi_open envGetInfoFail).devFreed = true ∧
    (zbc_scsi_open envGetInfoFail).devReturned = false := by
  have h := claim_C7_open_cleanup envGetInfoFail rfl (by decide)
  exact ⟨h.1, h.2.1 rfl, h.2.2⟩

end ZbcScsi
